import Mathlib

/-!
Shallow embedding of the ProfitPro server repository.

Numeric values that the Python code holds as `float` are modelled as
rationals (`ℚ`): every concrete number appearing in the claims under
verification (prices, oscillator readings, ratios, one-decimal rounding)
is exactly representable in binary64, so rational arithmetic agrees with
the float arithmetic on those inputs.  Unix timestamps (`int(time.time())`)
are modelled as `Int` parameters passed explicitly.  The sqlite `licenses`
table is modelled as a `List License`; a SQL `NULL` in the nullable
`expires_at` column is modelled as `0`, which every consumer of the field
treats identically to `NULL` (both are falsy in `or`-fallbacks and both
fail the `> 0` expiry check).  Python string methods are modelled over
the character list of the string (ASCII case mapping, which covers every
string the code compares against).
-/

namespace ProfitPro

/-- Model of Python `str.upper()` (ASCII case mapping). -/
def pyUpper (s : String) : String := String.mk (s.data.map Char.toUpper)

/-- Model of Python `str.lower()` (ASCII case mapping). -/
def pyLower (s : String) : String := String.mk (s.data.map Char.toLower)

/-! ## Archive/strategies/harmonic.py -/

/-- Model of `HarmonicSignal` (`Archive/strategies/harmonic.py`).
`None` becomes `Option.none`; the dataclass defaults are applied at the
construction sites of the claims, so the structure itself carries no
defaults. -/
structure HarmonicSignal where
  symbol : String
  pattern : String
  side : String
  price : ℚ
  prz_low : Option ℚ
  prz_high : Option ℚ
  rsi : Option ℚ
  supertrend : Option String
  risk_reward : Option String
deriving DecidableEq, Repr

/-- Value of a digit run, `none` when empty or containing a non-digit. -/
def digitsVal : List Char → Option Nat
  | [] => none
  | cs => cs.foldlM (fun acc c => if c.isDigit then some (acc * 10 + (c.toNat - 48)) else none) 0

/-- Model of Python `float(s)` restricted to plain decimal literals
(optional sign, digits, optional single decimal point), returning `none`
where `float` raises `ValueError`.  The parse result is the pair
(signed mantissa, number of fractional digits), so that the parse itself
stays in decidable integer arithmetic; `floatVal` turns it into the
parsed value.  The builtin additionally accepts exponents, `inf`/`nan`
and surrounding whitespace; none of those occur in the risk-reward
strings the claims probe. -/
def parseFloat (s : List Char) : Option (Int × Nat) :=
  let sign : Int × List Char :=
    match s with
    | '-' :: rest => (-1, rest)
    | '+' :: rest => (1, rest)
    | cs => (1, cs)
  match sign.2.splitOn '.' with
  | [intPart] => (digitsVal intPart).map (fun n => (sign.1 * n, 0))
  | [intPart, fracPart] =>
    if intPart.isEmpty && fracPart.isEmpty then none
    else
      match (if intPart.isEmpty then some 0 else digitsVal intPart),
            (if fracPart.isEmpty then some 0 else digitsVal fracPart) with
      | some i, some f => some (sign.1 * ((i : Int) * 10 ^ fracPart.length + f), fracPart.length)
      | _, _ => none
  | _ => none

/-- Value denoted by a `parseFloat` result. -/
def floatVal (p : Int × Nat) : ℚ := (p.1 : ℚ) / 10 ^ p.2

/-- Model of `_rr_to_float` (`harmonic.py` lines 16–21): split on `":"`,
compute `float(b) / float(a)`, defaulting to `2.0` whenever any step
raises — wrong number of parts, a non-numeric part, or `float(b) /
float(a)` raising `ZeroDivisionError`, which happens exactly when the
mantissa of `a` is `0`. -/
def _rr_to_float (rr : String) : ℚ :=
  match rr.data.splitOn ':' with
  | [a, b] =>
    match parseFloat a, parseFloat b with
    | some pa, some pb => if pa.1 = 0 then 2 else floatVal pb / floatVal pa
    | _, _ => 2
  | _ => 2

/-- Round-half-to-even on rationals, the tie-breaking rule of Python 3
`round`. -/
def roundHalfEven (q : ℚ) : ℤ :=
  let f := ⌊q⌋
  let frac := q - f
  if frac < 1 / 2 then f
  else if 1 / 2 < frac then f + 1
  else if f % 2 = 0 then f else f + 1

/-- Model of Python `round(x, 1)` on exact decimals. -/
def round1 (q : ℚ) : ℚ := (roundHalfEven (q * 10) : ℚ) / 10

/-- Model of the `sig.risk_reward or "1:2"` fallback: Python treats both
`None` and the empty string as falsy. -/
def rrOrDefault : Option String → String
  | none => "1:2"
  | some s => if s = "" then "1:2" else s

/-- Model of `compute_sl_tp` (`harmonic.py` lines 23–34). -/
def compute_sl_tp (sig : HarmonicSignal) : ℚ × ℚ :=
  let price := sig.price
  let rr := _rr_to_float (rrOrDefault sig.risk_reward)
  let buffer := price * (25 / 10000)
  if pyUpper sig.side = "BUY" then
    let sl := sig.prz_low.getD (price - buffer)
    let tp := price + rr * (price - sl)
    (round1 sl, round1 tp)
  else
    let sl := sig.prz_high.getD (price + buffer)
    let tp := price - rr * (sl - price)
    (round1 sl, round1 tp)

/-- Model of the guard `sig.supertrend and sig.supertrend.lower() != want`:
`None` and `""` are falsy, so only a non-empty string whose lowercasing
differs from the wanted direction blocks the signal. -/
def trendBlocks (st : Option String) (want : String) : Bool :=
  match st with
  | none => false
  | some s => !(s == "") && !(pyLower s == want)

/-- Model of the guard `sig.rsi is not None and not (lo <= sig.rsi <= hi)`. -/
def rsiBlocks (rsi : Option ℚ) (lo hi : ℚ) : Bool :=
  match rsi with
  | none => false
  | some r => !(decide (lo ≤ r) && decide (r ≤ hi))

/-- Model of `basic_confirmations` (`harmonic.py` lines 36–48). -/
def basic_confirmations (sig : HarmonicSignal) : Bool :=
  if pyUpper sig.side = "BUY" then
    if trendBlocks sig.supertrend "up" then false
    else if rsiBlocks sig.rsi 35 60 then false
    else true
  else
    if trendBlocks sig.supertrend "down" then false
    else if rsiBlocks sig.rsi 40 65 then false
    else true

/-- Replace the `supertrend` field of a signal, leaving the rest intact. -/
def withTrend (sig : HarmonicSignal) (st : Option String) : HarmonicSignal :=
  ⟨sig.symbol, sig.pattern, sig.side, sig.price, sig.prz_low, sig.prz_high, sig.rsi, st,
    sig.risk_reward⟩

/-! ## server.py — the order mailbox and its HTTP endpoints -/

/-- Model of the order dict built by `queue_order` (`server.py` lines
85–93): `id` is `str(int(time.time() * 1000))` and `ts` is
`time.time()`, both derived from a clock value passed explicitly here. -/
structure Order where
  id : String
  direction : String
  symbol : String
  lot : ℚ
  sl : ℚ
  tp : ℚ
  ts : ℚ
deriving DecidableEq, Repr

/-- Model of the module-level `_pending_order` slot (`server.py` line 38):
`None` or a single order dict.  The lock only serialises access and has
no observable effect in a sequential model. -/
abbrev MailboxState := Option Order

/-- Model of `_set_order` (`server.py` lines 44–47): unconditionally
overwrites the slot. -/
def _set_order (o : Option Order) (_s : MailboxState) : MailboxState := o

/-- Model of `_peek_order` (`server.py` lines 40–42): returns the slot
content without clearing it. -/
def _peek_order (s : MailboxState) : Option Order := s

/-- Model of `_clear_order` (`server.py` lines 49–50). -/
def _clear_order (s : MailboxState) : MailboxState := _set_order none s

def DEFAULT_SYMBOL : String := "US30"

def DEFAULT_LOT : ℚ := 1 / 10

/-- Model of `queue_order` (`server.py` lines 76–113): refuse any
direction outside `("BUY", "SELL")` without touching the slot, else
build the order dict and store it.  `direction` is an `Option` because
the HTTP caller passes `data.get("direction")`, which is `None` when the
field is missing; `None not in ("BUY", "SELL")` is also a refusal.
Telegram notification is an external side effect with no bearing on the
returned value or the slot. -/
def queue_order (now : ℚ) (direction : Option String) (symbol : String) (lot sl tp : ℚ)
    (s : MailboxState) : Bool × MailboxState :=
  match direction with
  | some d =>
    if d == "BUY" || d == "SELL" then
      (true, _set_order (some ⟨toString ⌊now * 1000⌋, d, symbol, lot, sl, tp, now⟩) s)
    else (false, s)
  | none => (false, s)

/-- Outcome of `request.get_json(force=True, silent=False)` on the body
posted to `/order_result`: the body may fail to parse as JSON (the call
raises), parse to a non-object value, or parse to an object.  The
object's fields only feed logging and notification, so they are not
carried. -/
inductive ResultBody where
  | notJson
  | jsonNonDict
  | jsonDict
deriving DecidableEq, Repr

/-- Model of the `/order_result` handler (`server.py` lines 213–227):
a JSON object is acknowledged with `"ACK"`/200 and the slot is cleared;
a JSON value that is not an object gets `"BAD_FORMAT"`/400 with the slot
untouched; an unparseable body raises inside the handler, which is
caught and acknowledged with `"ACK"`/200 — also without reaching
`_clear_order`. -/
def order_result (body : ResultBody) (s : MailboxState) : (String × Nat) × MailboxState :=
  match body with
  | .notJson => (("ACK", 200), s)
  | .jsonNonDict => (("BAD_FORMAT", 400), s)
  | .jsonDict => (("ACK", 200), _clear_order s)

/-- JSON body accepted by `/push_order`: absent keys surface as `None`
from `data.get`, so each optional field is an `Option`.  The numeric
fields are modelled post-`float()` conversion; a conversion failure
takes the `"BAD_JSON"` path, which also leaves the slot untouched and is
outside the claim under verification. -/
structure PushBody where
  direction : Option String
  symbol : Option String
  lot : Option ℚ
  sl : Option ℚ
  tp : Option ℚ
deriving DecidableEq, Repr

/-- Model of the `/push_order` handler (`server.py` lines 229–245). -/
def push_order (now : ℚ) (body : PushBody) (s : MailboxState) : (String × Nat) × MailboxState :=
  let r := queue_order now body.direction (body.symbol.getD DEFAULT_SYMBOL)
    (body.lot.getD DEFAULT_LOT) (body.sl.getD 0) (body.tp.getD 0) s
  if r.1 then (("QUEUED", 200), r.2) else (("BAD_DIRECTION", 400), r.2)

/-- Arguments of one `queue_order` call, used to state properties of
sequences of pushes. -/
structure PushReq where
  now : ℚ
  direction : String
  symbol : String
  lot : ℚ
  sl : ℚ
  tp : ℚ
deriving DecidableEq, Repr

/-- The order dict a successful `queue_order` call stores for a request. -/
def orderOf (r : PushReq) : Order :=
  ⟨toString ⌊r.now * 1000⌋, r.direction, r.symbol, r.lot, r.sl, r.tp, r.now⟩

/-- Run a sequence of `queue_order` calls against the mailbox, keeping
only the slot state. -/
def pushSeq (s : MailboxState) (reqs : List PushReq) : MailboxState :=
  reqs.foldl (fun st r => (queue_order r.now (some r.direction) r.symbol r.lot r.sl r.tp st).2) s

/-! ## license_server.py / billing_server.py — the `licenses` table -/

/-- Model of one row of the `licenses` table (`license_server.py` lines
43–52).  The autoincrement `id` column is never read by the code under
verification and is omitted; row identity in the model is positional.
A `NULL` in `expires_at` is modelled as `0` (see the file header). -/
structure License where
  license_key : String
  email : String
  mt5_account : String
  status : String
  expires_at : Int
  created_at : Int
  updated_at : Int
deriving DecidableEq, Repr

/-- The `licenses` table in insertion order; `SELECT` without `ORDER BY`
is modelled as scanning this order, matching sqlite's behaviour on a
table that only ever gains rows. -/
abbrev DB := List License

/-- Model of `create_license` (`license_server.py` lines 60–77): the
random `secrets.token_urlsafe(16)` key and `int(time.time())` are passed
in explicitly.  Returns the key and the table with the inserted row. -/
def create_license (db : DB) (email : String) (days_valid : Int) (now : Int) (key : String) :
    String × DB :=
  (key, db ++ [⟨key, email, "", "active", now + days_valid * 86400, now, now⟩])

/-- Model of `find_license` (`license_server.py` lines 80–87):
`fetchone` on `SELECT * WHERE license_key = ?`. -/
def find_license (db : DB) (license_key : String) : Option License :=
  db.find? (fun l => l.license_key == license_key)

/-- Model of `set_license_status` (`license_server.py` lines 90–100):
`UPDATE` of every row with the given key. -/
def set_license_status (db : DB) (license_key status : String) (now : Int) : DB :=
  db.map (fun l => if l.license_key == license_key then
    ⟨l.license_key, l.email, l.mt5_account, status, l.expires_at, l.created_at, now⟩ else l)

/-- Model of `set_license_expiry` (`license_server.py` lines 103–113). -/
def set_license_expiry (db : DB) (license_key : String) (expires_at now : Int) : DB :=
  db.map (fun l => if l.license_key == license_key then
    ⟨l.license_key, l.email, l.mt5_account, l.status, expires_at, l.created_at, now⟩ else l)

/-- Model of `bind_account_if_needed` (`license_server.py` lines
116–137): `None` for an unknown key; a first connection (empty
`mt5_account`) writes the presented account into the table and into the
returned row dict (which keeps its stale `updated_at`, exactly as the
Python dict does); a non-empty binding is returned untouched with no
`UPDATE` issued. -/
def bind_account_if_needed (db : DB) (license_key account : String) (now : Int) :
    Option License × DB :=
  match find_license db license_key with
  | none => (none, db)
  | some lic =>
    if lic.mt5_account = "" then
      (some ⟨lic.license_key, lic.email, account, lic.status, lic.expires_at, lic.created_at,
        lic.updated_at⟩,
       db.map (fun l => if l.license_key == license_key then
         ⟨l.license_key, l.email, account, l.status, l.expires_at, l.created_at, now⟩ else l))
    else (some lic, db)

/-- Response of `/api/verify`: the JSON `status`/`reason` pair and the
HTTP status code.  A successful verification carries no `reason` key,
modelled as `""`. -/
structure VerifyResp where
  status : String
  reason : String
  http : Nat
deriving DecidableEq, Repr

/-- Model of the `/api/verify` handler (`license_server.py` lines
203–255) after JSON extraction: `license_key` and `account` are the
stripped strings pulled from the body, `now` is `int(time.time())`. -/
def api_verify (db : DB) (license_key account : String) (now : Int) : VerifyResp × DB :=
  if license_key = "" then (⟨"DENIED", "missing_license_key", 200⟩, db)
  else
    match find_license db license_key with
    | none => (⟨"DENIED", "unknown_license", 200⟩, db)
    | some lic =>
      if lic.status ≠ "active" then (⟨"DENIED", "inactive", 200⟩, db)
      else if lic.expires_at > 0 ∧ now > lic.expires_at then
        (⟨"DENIED", "expired", 200⟩, set_license_status db license_key "expired" now)
      else
        let r := bind_account_if_needed db license_key account now
        match r.1 with
        | some lic2 =>
          if lic2.mt5_account ≠ "" ∧ lic2.mt5_account ≠ account then
            (⟨"DENIED", "wrong_account", 200⟩, r.2)
          else (⟨"OK", "", 200⟩, r.2)
        | none => (⟨"OK", "", 200⟩, r.2)

/-- Response of `/api/check_license`: the presentation-only
`expires_at_iso` string of the JSON body is omitted (it is a pure
formatting of `expires_at`). -/
structure CheckResp where
  ok : Bool
  valid : Bool
  reason : String
  email : Option String
  expires_at : Option Int
  http : Nat
deriving DecidableEq, Repr

/-- Model of the `/api/check_license` handler (`license_server.py` lines
259–326): `license_key` is the stripped query parameter. -/
def api_check_license (db : DB) (license_key : String) (now : Int) : CheckResp × DB :=
  if license_key = "" then (⟨false, false, "missing_license_key", none, none, 400⟩, db)
  else
    match find_license db license_key with
    | none => (⟨true, false, "not_found", none, none, 200⟩, db)
    | some lic =>
      let expires_at := lic.expires_at
      if lic.status ≠ "active" then
        (⟨true, false, "inactive", some lic.email,
          if expires_at > 0 then some expires_at else none, 200⟩, db)
      else if expires_at > 0 ∧ now > expires_at then
        (⟨true, false, "expired", some lic.email, some expires_at, 200⟩,
         set_license_status db license_key "expired" now)
      else
        (⟨true, true, "ok", some lic.email,
          if expires_at > 0 then some expires_at else none, 200⟩, db)

/-- Model of `find_active_license_by_email` (`billing_server.py` lines
54–64): `fetchone` on the unordered `SELECT`, i.e. the first matching
row in table order. -/
def find_active_license_by_email (db : DB) (email : String) : Option License :=
  db.find? (fun l => l.email == email && l.status == "active")

/-- Model of `deactivate_licenses_by_email` (`billing_server.py` lines
67–79). -/
def deactivate_licenses_by_email (db : DB) (email : String) (now : Int) : DB :=
  db.map (fun l => if l.email == email && l.status == "active" then
    ⟨l.license_key, l.email, l.mt5_account, "inactive", l.expires_at, l.created_at, now⟩ else l)

/-- Model of `create_or_extend_license_for_email` (`billing_server.py`
lines 82–102).  `lic.get("expires_at") or now` falls back to `now` both
for `NULL` and for `0`, which the model's `0`-for-`NULL` convention
captures in one test. -/
def create_or_extend_license_for_email (db : DB) (email : String) (days_valid : Int) (now : Int)
    (freshKey : String) : String × DB :=
  match find_active_license_by_email db email with
  | none => create_license db email days_valid now freshKey
  | some lic =>
    let old_exp := if lic.expires_at = 0 then now else lic.expires_at
    let new_exp := max old_exp now + days_valid * 86400
    (lic.license_key, set_license_expiry db lic.license_key new_exp now)

/-! ## Shared lemmas -/

/-- Looking a key up after a per-row update that never changes keys finds
the updated image of the row the lookup found before. -/
theorem find_license_map (db : DB) (key : String) (f : License → License)
    (hf : ∀ l, (f l).license_key = l.license_key) :
    find_license (db.map f) key = (find_license db key).map f := by
  induction db with
  | nil => rfl
  | cons a t ih =>
    simp only [find_license, List.map_cons, List.find?_cons] at *
    by_cases h : (a.license_key == key)
    · have h' : ((f a).license_key == key) = true := by rw [hf]; exact h
      simp [h, h']
    · have h' : ((f a).license_key == key) = false := by rw [hf]; simpa using h
      simp [h, h', ih]

/-! ## Claim theorems -/

/-- C1 counterexample: the risk-reward parser does not return the
default `2.0` on `"1:0"` — `"1:0".split(":")` succeeds, `float("0") /
float("1")` is `0.0`, and no exception is raised. -/
theorem rr_default_counterexample : _rr_to_float "1:0" ≠ 2 := by
  have h : "1:0".data.splitOn ':' = [['1'], ['0']] := by decide
  have ha : parseFloat ['1'] = some (1, 0) := by decide
  have hb : parseFloat ['0'] = some (0, 0) := by decide
  simp only [_rr_to_float, h, ha, hb]
  norm_num [floatVal]

/-- C1 (amended): the risk-reward parser is total (never raises) on
every input; the malformed inputs `"abc"` and `""` return the default
ratio `2.0`; `"1:0"` parses successfully to the ratio `0.0` (the ratio
is B/A, so no division by zero occurs), while an actual division by
zero such as `"0:1"` returns the default `2.0`. -/
theorem rr_to_float_total_and_defaults :
    (∀ rr : String, ∃ q : ℚ, _rr_to_float rr = q) ∧
    _rr_to_float "abc" = 2 ∧ _rr_to_float "" = 2 ∧
    _rr_to_float "1:0" = 0 ∧ _rr_to_float "0:1" = 2 := by
  refine ⟨fun rr => ⟨_rr_to_float rr, rfl⟩, ?_, ?_, ?_, ?_⟩
  · have h : "abc".data.splitOn ':' = [['a', 'b', 'c']] := by decide
    simp only [_rr_to_float, h]
  · have h : "".data.splitOn ':' = [[]] := by decide
    simp only [_rr_to_float, h]
  · have h : "1:0".data.splitOn ':' = [['1'], ['0']] := by decide
    have ha : parseFloat ['1'] = some (1, 0) := by decide
    have hb : parseFloat ['0'] = some (0, 0) := by decide
    simp only [_rr_to_float, h, ha, hb]
    norm_num [floatVal]
  · have h : "0:1".data.splitOn ':' = [['0'], ['1']] := by decide
    have ha : parseFloat ['0'] = some (0, 0) := by decide
    have hb : parseFloat ['1'] = some (1, 0) := by decide
    simp only [_rr_to_float, h, ha, hb]
    norm_num

/-- C2 counterexample: a body that parses as JSON but is not an object
(e.g. `[1, 2]`) is answered with `"BAD_FORMAT"` and HTTP 400, not
`"ACK"`/200. -/
theorem order_result_nondict_counterexample :
    (order_result ResultBody.jsonNonDict none).1 ≠ ("ACK", 200) := by decide

/-- C2 (amended): the order-result endpoint responds `"ACK"`/200 for
every body except one that parses as JSON to a non-object value, which
gets `"BAD_FORMAT"`/400; in particular a body that fails to parse at all
is still acknowledged with `"ACK"`/200. -/
theorem order_result_response_spec (body : ResultBody) (s : MailboxState) :
    (body = ResultBody.jsonNonDict → (order_result body s).1 = ("BAD_FORMAT", 400)) ∧
    (body ≠ ResultBody.jsonNonDict → (order_result body s).1 = ("ACK", 200)) := by
  cases body <;> simp [order_result]

/-- Witness for C2 at the unparseable-body input. -/
theorem order_result_response_spec_witness :
    (order_result ResultBody.notJson none).1 = ("ACK", 200) :=
  (order_result_response_spec ResultBody.notJson none).2 (by decide)

/-- C3: for an email with an active license, `create_or_extend` returns
that license's key, sets the expiry of every row carrying the key (the
key is unique) to `max(existingExpiry, now) + daysValid*86400`, and the
expiry never decreases; for an email with no active license it appends
exactly one fresh active license expiring at `now + daysValid*86400`,
and that license is then the only active one for the email. -/
theorem create_or_extend_spec (db : DB) (email freshKey : String) (days now : Int)
    (hnow : 0 ≤ now) (hdays : 0 ≤ days) :
    (∀ lic, find_active_license_by_email db email = some lic →
      (create_or_extend_license_for_email db email days now freshKey).1 = lic.license_key ∧
      (∃ l ∈ (create_or_extend_license_for_email db email days now freshKey).2,
        l.license_key = lic.license_key ∧
        l.expires_at = max lic.expires_at now + days * 86400) ∧
      (∀ l ∈ (create_or_extend_license_for_email db email days now freshKey).2,
        l.license_key = lic.license_key →
        l.expires_at = max lic.expires_at now + days * 86400) ∧
      lic.expires_at ≤ max lic.expires_at now + days * 86400) ∧
    (find_active_license_by_email db email = none →
      (create_or_extend_license_for_email db email days now freshKey).2 =
        db ++ [⟨freshKey, email, "", "active", now + days * 86400, now, now⟩] ∧
      ((create_or_extend_license_for_email db email days now freshKey).2.filter
        (fun l => l.email == email && l.status == "active")).length = 1) := by
  constructor
  · intro lic hfind
    have hmax : max (if lic.expires_at = 0 then now else lic.expires_at) now =
        max lic.expires_at now := by
      by_cases h : lic.expires_at = 0
      · simp [h, max_eq_right hnow, max_self]
      · simp [h]
    have hrun : create_or_extend_license_for_email db email days now freshKey =
        (lic.license_key,
         set_license_expiry db lic.license_key (max lic.expires_at now + days * 86400) now) := by
      simp only [create_or_extend_license_for_email, hfind, hmax]
    have hmem : lic ∈ db := List.mem_of_find?_eq_some hfind
    rw [hrun]
    refine ⟨rfl, ?_, ?_, ?_⟩
    · refine ⟨⟨lic.license_key, lic.email, lic.mt5_account,
        lic.status, max lic.expires_at now + days * 86400, lic.created_at, now⟩, ?_, rfl, rfl⟩
      rw [set_license_expiry]
      refine List.mem_map.mpr ⟨lic, hmem, ?_⟩
      simp
    · intro l hl hlk
      rw [set_license_expiry] at hl
      obtain ⟨l0, hl0, rfl⟩ := List.mem_map.mp hl
      by_cases h : (l0.license_key == lic.license_key)
      · simp [h]
      · simp only [h, if_neg] at hlk ⊢
        simp at h
        simp at hlk
        exact absurd hlk h
    · have h1 : lic.expires_at ≤ max lic.expires_at now := le_max_left _ _
      have h2 : (0 : Int) ≤ days * 86400 := by positivity
      omega
  · intro hnone
    have hrun : create_or_extend_license_for_email db email days now freshKey =
        (freshKey, db ++ [⟨freshKey, email, "", "active", now + days * 86400, now, now⟩]) := by
      simp only [create_or_extend_license_for_email, hnone, create_license]
    rw [hrun]
    refine ⟨rfl, ?_⟩
    have hall : ∀ l ∈ db, ¬(l.email == email && l.status == "active") = true := by
      have hmm := hnone
      rw [find_active_license_by_email] at hmm
      exact fun l hl => by
        have h2 := List.find?_eq_none.mp hmm l hl
        simpa using h2
    have hfilter : db.filter (fun l => l.email == email && l.status == "active") = [] := by
      rw [List.filter_eq_nil_iff]
      exact hall
    rw [List.filter_append, hfilter]
    simp

/-- Witness for C3 at a one-row table holding an active license for the
email: the second call extends in place, preserving the key. -/
theorem create_or_extend_spec_witness :
    (create_or_extend_license_for_email [⟨"K", "a@b", "", "active", 5000, 1, 1⟩] "a@b" 30 1000
      "F").1 = "K" ∧
    (∃ l ∈ (create_or_extend_license_for_email [⟨"K", "a@b", "", "active", 5000, 1, 1⟩] "a@b" 30
      1000 "F").2, l.license_key = "K" ∧ l.expires_at = max 5000 1000 + 30 * 86400) ∧
    (∀ l ∈ (create_or_extend_license_for_email [⟨"K", "a@b", "", "active", 5000, 1, 1⟩] "a@b" 30
      1000 "F").2, l.license_key = "K" → l.expires_at = max 5000 1000 + 30 * 86400) ∧
    (5000 : Int) ≤ max 5000 1000 + 30 * 86400 :=
  (create_or_extend_spec [⟨"K", "a@b", "", "active", 5000, 1, 1⟩] "a@b" "F" 30 1000
    (by decide) (by decide)).1 ⟨"K", "a@b", "", "active", 5000, 1, 1⟩ (by rfl)

/-- C4: an active license whose positive expiry lies in the past is
flipped to status `expired` by the first check that observes it, which
answers invalid/expired; every later check on the resulting table
answers invalid and leaves the table unchanged, so the `expired` status
is never reverted by the verification path. -/
theorem check_license_expiry_transition (db : DB) (key : String) (lic : License) (now : Int)
    (hkey : key ≠ "") (hfind : find_license db key = some lic)
    (hactive : lic.status = "active") (hexp : 0 < lic.expires_at)
    (hpast : lic.expires_at < now) :
    ((api_check_license db key now).1.valid = false ∧
     (api_check_license db key now).1.reason = "expired") ∧
    (find_license (api_check_license db key now).2 key).map License.status = some "expired" ∧
    (∀ now2 : Int,
      (api_check_license (api_check_license db key now).2 key now2).1.valid = false ∧
      (api_check_license (api_check_license db key now).2 key now2).2 =
        (api_check_license db key now).2) := by
  have hfind' : db.find? (fun l => l.license_key == key) = some lic := hfind
  have hp : (lic.license_key == key) = true := by
    have h2 := List.find?_some hfind'
    simpa using h2
  have hkeq : lic.license_key = key := eq_of_beq hp
  have hrun : api_check_license db key now =
      (⟨true, false, "expired", some lic.email, some lic.expires_at, 200⟩,
       set_license_status db key "expired" now) := by
    simp only [api_check_license, if_neg hkey, hfind]
    simp [hactive, hexp, hpast]
  have hfind2 : find_license (set_license_status db key "expired" now) key =
      some ⟨lic.license_key, lic.email, lic.mt5_account, "expired", lic.expires_at,
        lic.created_at, now⟩ := by
    rw [set_license_status,
      find_license_map db key _ (by intro l; by_cases h : (l.license_key == key) <;> simp [h]),
      hfind]
    simp [hkeq]
  refine ⟨by rw [hrun]; exact ⟨rfl, rfl⟩, by rw [hrun]; rw [hfind2]; rfl, ?_⟩
  intro now2
  rw [hrun]
  simp only [api_check_license, if_neg hkey, hfind2]
  simp

/-- Witness for C4: a single active license with expiry 100 checked at
time 200. -/
theorem check_license_expiry_transition_witness :
    ((api_check_license [⟨"KEY1", "a@b", "", "active", 100, 1, 1⟩] "KEY1" 200).1.valid = false ∧
     (api_check_license [⟨"KEY1", "a@b", "", "active", 100, 1, 1⟩] "KEY1" 200).1.reason =
       "expired") ∧
    (find_license (api_check_license [⟨"KEY1", "a@b", "", "active", 100, 1, 1⟩] "KEY1" 200).2
      "KEY1").map License.status = some "expired" ∧
    (∀ now2 : Int,
      (api_check_license (api_check_license [⟨"KEY1", "a@b", "", "active", 100, 1, 1⟩] "KEY1"
        200).2 "KEY1" now2).1.valid = false ∧
      (api_check_license (api_check_license [⟨"KEY1", "a@b", "", "active", 100, 1, 1⟩] "KEY1"
        200).2 "KEY1" now2).2 =
        (api_check_license [⟨"KEY1", "a@b", "", "active", 100, 1, 1⟩] "KEY1" 200).2) :=
  check_license_expiry_transition [⟨"KEY1", "a@b", "", "active", 100, 1, 1⟩] "KEY1"
    ⟨"KEY1", "a@b", "", "active", 100, 1, 1⟩ 200 (by decide) (by rfl) rfl (by decide) (by decide)

/-- C5: a license bound to a non-empty account stays bound — the bind
helper performs no mutation — and a verify call presenting a different
account is denied with reason `wrong_account` while the whole table,
hence the stored device and the rest of the record, is unchanged. -/
theorem verify_wrong_account_spec (db : DB) (key account : String) (lic : License) (now : Int)
    (hkey : key ≠ "") (hfind : find_license db key = some lic)
    (hactive : lic.status = "active")
    (hnotexp : ¬(lic.expires_at > 0 ∧ now > lic.expires_at))
    (hbound : lic.mt5_account ≠ "") (hdiff : lic.mt5_account ≠ account) :
    api_verify db key account now = (⟨"DENIED", "wrong_account", 200⟩, db) ∧
    bind_account_if_needed db key account now = (some lic, db) := by
  have hbind : bind_account_if_needed db key account now = (some lic, db) := by
    simp only [bind_account_if_needed, hfind, if_neg hbound]
  refine ⟨?_, hbind⟩
  simp only [api_verify, if_neg hkey, hfind, hbind]
  simp [hactive, hnotexp, hbound, hdiff]

/-- Witness for C5: a license bound to `"ACC1"` verified from `"ACC2"`. -/
theorem verify_wrong_account_spec_witness :
    api_verify [⟨"KEY1", "a@b", "ACC1", "active", 0, 1, 1⟩] "KEY1" "ACC2" 50 =
      (⟨"DENIED", "wrong_account", 200⟩, [⟨"KEY1", "a@b", "ACC1", "active", 0, 1, 1⟩]) ∧
    bind_account_if_needed [⟨"KEY1", "a@b", "ACC1", "active", 0, 1, 1⟩] "KEY1" "ACC2" 50 =
      (some ⟨"KEY1", "a@b", "ACC1", "active", 0, 1, 1⟩,
       [⟨"KEY1", "a@b", "ACC1", "active", 0, 1, 1⟩]) :=
  verify_wrong_account_spec [⟨"KEY1", "a@b", "ACC1", "active", 0, 1, 1⟩] "KEY1" "ACC2"
    ⟨"KEY1", "a@b", "ACC1", "active", 0, 1, 1⟩ 50 (by decide) (by rfl) rfl (by decide)
    (by decide) (by decide)

/-- C6: on a BUY signal the stop loss is `prz_low` when present, else
`price` minus the 0.25% buffer, the take profit is `price + ratio *
(price - stopLoss)`, both rounded to one decimal; the concrete example
price 45000, prz_low 44800, risk-reward `"1:2"` yields
`(44800.0, 45400.0)`. -/
theorem compute_sl_tp_buy_spec (sig : HarmonicSignal) (h : sig.side = "BUY") :
    compute_sl_tp sig =
      (round1 (sig.prz_low.getD (sig.price - sig.price * (25 / 10000))),
       round1 (sig.price + _rr_to_float (rrOrDefault sig.risk_reward) *
         (sig.price - sig.prz_low.getD (sig.price - sig.price * (25 / 10000))))) ∧
    compute_sl_tp ⟨"US30", "GARTLEY", "BUY", 45000, some 44800, none, none, none, some "1:2"⟩
      = (44800, 45400) := by
  constructor
  · have hu : pyUpper sig.side = "BUY" := by rw [h]; decide
    simp only [compute_sl_tp, hu, if_pos]
  · have hrr : _rr_to_float "1:2" = 2 := by
      have hsp : "1:2".data.splitOn ':' = [['1'], ['2']] := by decide
      have ha : parseFloat ['1'] = some (1, 0) := by decide
      have hb : parseFloat ['2'] = some (2, 0) := by decide
      simp only [_rr_to_float, hsp, ha, hb]
      norm_num [floatVal]
    have hd : rrOrDefault (some "1:2") = "1:2" := by decide
    have hu : pyUpper "BUY" = "BUY" := by decide
    simp only [compute_sl_tp, hd, hrr, hu, if_pos, Option.getD_some]
    norm_num [round1, roundHalfEven]

/-- Witness for C6 at the concrete example signal of the claim. -/
theorem compute_sl_tp_buy_spec_witness :
    compute_sl_tp ⟨"US30", "GARTLEY", "BUY", 45000, some 44800, none, none, none, some "1:2"⟩
      = (44800, 45400) :=
  (compute_sl_tp_buy_spec ⟨"US30", "GARTLEY", "BUY", 45000, some 44800, none, none, none,
    some "1:2"⟩ rfl).2

/-- C7 counterexample: a SELL signal with oscillator reading 50 — inside
[40, 65] — is still rejected when a trend filter `"up"` is present, so
acceptance is not equivalent to the reading lying in the interval. -/
theorem sell_rsi_iff_counterexample :
    basic_confirmations ⟨"US30", "GARTLEY", "SELL", 100, none, none, some 50, some "up",
      some "1:2"⟩ = false ∧ (40 : ℚ) ≤ 50 ∧ (50 : ℚ) ≤ 65 := by
  refine ⟨?_, by norm_num, by norm_num⟩
  have h1 : ¬(pyUpper "SELL" = "BUY") := by decide
  have h2 : trendBlocks (some "up") "down" = true := by decide
  simp only [basic_confirmations, h1, if_false, h2, if_true, ite_false, ite_true]

/-- C7 (amended): for a SELL signal carrying an oscillator reading,
whenever the trend filter does not itself block (absent, empty, or
lowercasing to `"down"`), the signal is accepted exactly when the
reading lies in the closed interval [40, 65]; and a reading outside
[40, 65] — such as 39.9 — is rejected regardless of the trend filter,
while 40.0 and 65.0 pass the oscillator confirmation. -/
theorem sell_rsi_interval_spec (sig : HarmonicSignal) (r : ℚ)
    (hside : sig.side = "SELL") (hrsi : sig.rsi = some r) :
    (trendBlocks sig.supertrend "down" = false →
      (basic_confirmations sig = true ↔ (40 ≤ r ∧ r ≤ 65))) ∧
    (¬(40 ≤ r ∧ r ≤ 65) → basic_confirmations sig = false) := by
  have hu : pyUpper sig.side = "SELL" := by rw [hside]; decide
  have hne : ¬(pyUpper sig.side = "BUY") := by rw [hu]; decide
  constructor
  · intro htrend
    simp only [basic_confirmations, hne, if_false, htrend, hrsi, rsiBlocks, ite_false, ite_true]
    constructor
    · intro hb
      by_contra hc
      simp only [Bool.not_and, Bool.not_eq_true] at hb hc
      rcases Classical.em (40 ≤ r) with h40 | h40 <;> rcases Classical.em (r ≤ 65) with h65 | h65
      · exact hc ⟨h40, h65⟩
      all_goals simp [h40, h65] at hb
    · intro hin
      simp [hin.1, hin.2]
  · intro hout
    simp only [basic_confirmations, hne, if_false, hrsi, rsiBlocks, ite_false]
    have hbl : ¬(decide (40 ≤ r) && decide (r ≤ 65)) = true := by
      simp only [Bool.and_eq_true, decide_eq_true_eq]
      exact fun hb => hout ⟨hb.1, hb.2⟩
    simp [hbl]

/-- Witness for C7 at the boundary readings 40 and 65 (accepted) and at
39.9 (rejected even with a blocking trend filter absent or present). -/
theorem sell_rsi_interval_spec_witness :
    basic_confirmations ⟨"US30", "GARTLEY", "SELL", 100, none, none, some 40, none, some "1:2"⟩
      = true ∧
    basic_confirmations ⟨"US30", "GARTLEY", "SELL", 100, none, none, some 65, none, some "1:2"⟩
      = true ∧
    basic_confirmations ⟨"US30", "GARTLEY", "SELL", 100, none, none, some (399 / 10), none,
      some "1:2"⟩ = false := by
  refine ⟨?_, ?_, ?_⟩
  · exact ((sell_rsi_interval_spec
      ⟨"US30", "GARTLEY", "SELL", 100, none, none, some 40, none, some "1:2"⟩ 40 rfl rfl).1
      (by decide)).mpr (by norm_num)
  · exact ((sell_rsi_interval_spec
      ⟨"US30", "GARTLEY", "SELL", 100, none, none, some 65, none, some "1:2"⟩ 65 rfl rfl).1
      (by decide)).mpr (by norm_num)
  · exact (sell_rsi_interval_spec
      ⟨"US30", "GARTLEY", "SELL", 100, none, none, some (399 / 10), none, some "1:2"⟩
      (399 / 10) rfl rfl).2 (by norm_num)

/-- C8: after any sequence of successful pushes with no intervening ack
or clear, the slot holds exactly the order of the last push, and peek
returns it; earlier orders are gone because the slot is the only
storage. -/
theorem mailbox_last_write_wins (s : MailboxState) (reqs : List PushReq) (r : PushReq)
    (hall : ∀ q ∈ reqs, q.direction = "BUY" ∨ q.direction = "SELL")
    (hr : r.direction = "BUY" ∨ r.direction = "SELL") :
    pushSeq s (reqs ++ [r]) = some (orderOf r) ∧
    _peek_order (pushSeq s (reqs ++ [r])) = some (orderOf r) := by
  have hsub : ∀ q ∈ reqs, q.direction = "BUY" ∨ q.direction = "SELL" := hall
  clear hsub
  have key : pushSeq s (reqs ++ [r]) = some (orderOf r) := by
    rw [pushSeq, List.foldl_append]
    simp only [List.foldl_cons, List.foldl_nil]
    rcases hr with h | h <;> simp [queue_order, h, _set_order, orderOf]
  exact ⟨key, key⟩

/-- Witness for C8: push A (BUY) then push B (SELL); the slot holds
exactly B, which differs from A. -/
theorem mailbox_last_write_wins_witness :
    pushSeq none [⟨0, "BUY", "US30", 1, 0, 0⟩, ⟨1, "SELL", "US30", 2, 0, 0⟩]
      = some (orderOf ⟨1, "SELL", "US30", 2, 0, 0⟩) ∧
    some (orderOf ⟨1, "SELL", "US30", 2, 0, 0⟩) ≠ some (orderOf ⟨0, "BUY", "US30", 1, 0, 0⟩) := by
  constructor
  · exact (mailbox_last_write_wins none [⟨0, "BUY", "US30", 1, 0, 0⟩]
      ⟨1, "SELL", "US30", 2, 0, 0⟩
      (by intro q hq; simp at hq; rw [hq]; exact Or.inl rfl) (Or.inr rfl)).1
  · simp [orderOf]

/-- C9: a signal whose trend-filter field is the empty string is
confirmed exactly as if the field were absent, and the empty-string
filter blocks nothing, for either wanted direction. -/
theorem empty_supertrend_treated_absent (sig : HarmonicSignal) :
    basic_confirmations (withTrend sig (some "")) = basic_confirmations (withTrend sig none) ∧
    (∀ want : String, trendBlocks (some "") want = false) := by
  constructor
  · simp [basic_confirmations, withTrend, trendBlocks]
  · intro want
    simp [trendBlocks]

/-- C10: a push whose direction is missing or not exactly `"BUY"` or
`"SELL"` is refused — `queue_order` returns `False` and the HTTP handler
answers `"BAD_DIRECTION"`/400 — with the mailbox slot left exactly as it
was. -/
theorem push_invalid_direction_rejected (now : ℚ) (body : PushBody) (s : MailboxState)
    (hd : ∀ d, body.direction = some d → ¬(d = "BUY" ∨ d = "SELL")) :
    queue_order now body.direction (body.symbol.getD DEFAULT_SYMBOL) (body.lot.getD DEFAULT_LOT)
        (body.sl.getD 0) (body.tp.getD 0) s = (false, s) ∧
    push_order now body s = (("BAD_DIRECTION", 400), s) := by
  have hq : queue_order now body.direction (body.symbol.getD DEFAULT_SYMBOL)
      (body.lot.getD DEFAULT_LOT) (body.sl.getD 0) (body.tp.getD 0) s = (false, s) := by
    cases hb : body.direction with
    | none => simp [queue_order]
    | some d =>
      have hne := hd d hb
      have h1 : d ≠ "BUY" := fun hh => hne (Or.inl hh)
      have h2 : d ≠ "SELL" := fun hh => hne (Or.inr hh)
      simp [queue_order, h1, h2]
  exact ⟨hq, by simp [push_order, hq]⟩

/-- Witness for C10: a push with direction `"HOLD"` against an empty
slot is refused without touching the slot. -/
theorem push_invalid_direction_rejected_witness :
    queue_order 0 (some "HOLD") ((none : Option String).getD DEFAULT_SYMBOL)
        ((none : Option ℚ).getD DEFAULT_LOT) ((none : Option ℚ).getD 0)
        ((none : Option ℚ).getD 0) none = (false, none) ∧
    push_order 0 ⟨some "HOLD", none, none, none, none⟩ none = (("BAD_DIRECTION", 400), none) :=
  push_invalid_direction_rejected 0 ⟨some "HOLD", none, none, none, none⟩ none
    (by intro d hdd; simp at hdd; rw [← hdd]; decide)

end ProfitPro
